import Mathlib

/-!
# Verification of the gamification frontend components

A shallow embedding of the React components of the repository
(`fe-quest/src/App.jsx`, `fe-quest/src/QuestStatus.jsx`,
`reactjs_frontend/src/components/UserManagement.jsx`, and the unnamed
components `Signup`, `AssignQuest`, `QuestManagement`, `RewardManagement`
and the gateway `App`).  Each event handler is translated to a pure Lean
function from the component state and the outcome of its awaited HTTP
call to the list of requests it issues and the state updates, console
logs and alerts it performs.  JavaScript values are modelled by `JSValue`
and property access by `getProp` (which, as in JavaScript, fails on
`null`/`undefined` receivers); expressions that can throw inside a
`catch` block are computed in `Except Unit`.
-/

/-- A JavaScript value as manipulated by the frontend code.  `NaN` gets
its own constructor since `parseInt` produces it. -/
inductive JSValue where
  | null
  | undefined
  | nan
  | bool (b : Bool)
  | num (n : Int)
  | str (s : String)
  | arr (elems : List JSValue)
  | obj (fields : List (String × JSValue))

/-- `null` and `undefined` are the nullish values. -/
def nullish : JSValue → Bool
  | .null => true
  | .undefined => true
  | _ => false

/-- JavaScript truthiness. -/
def truthy : JSValue → Bool
  | .null => false
  | .undefined => false
  | .nan => false
  | .bool b => b
  | .num n => !(n == 0)
  | .str s => !(s.isEmpty)
  | .arr _ => true
  | .obj _ => true

/-- The JavaScript `a || b` operator. -/
def jsOr (a b : JSValue) : JSValue :=
  if truthy a then a else b

/-- `Array.isArray`. -/
def isArray : JSValue → Bool
  | .arr _ => true
  | _ => false

/-- JavaScript property access `v.k`; throws (`Except.error`) when the
receiver is nullish, yields `undefined` for a missing field or for a
non-object receiver (built-in properties are not modelled). -/
def getProp : JSValue → String → Except Unit JSValue
  | .null, _ => .error ()
  | .undefined, _ => .error ()
  | .obj fields, k => .ok ((fields.lookup k).getD .undefined)
  | _, _ => .ok .undefined

/-- Total variant of property access, used where the receiver is a
server response (the claims quantify over documented response shapes,
for which access does not throw). -/
def propOf : JSValue → String → JSValue
  | .obj fields, k => (fields.lookup k).getD .undefined
  | _, _ => .undefined

mutual

/-- JavaScript string coercion, as in template literals. -/
def jsToString : JSValue → String
  | .null => "null"
  | .undefined => "undefined"
  | .nan => "NaN"
  | .bool b => if b then "true" else "false"
  | .num n => toString n
  | .str s => s
  | .arr xs => String.intercalate "," (jsToStringList xs)
  | .obj _ => "[object Object]"

def jsToStringList : List JSValue → List String
  | [] => []
  | x :: xs => jsToString x :: jsToStringList xs

end

/-- JavaScript `parseInt` on a string with no explicit radix: skip
whitespace, read an optional sign and then the leading decimal digits;
with no leading digit the result is `NaN`.  (The hexadecimal `0x` form
does not occur in this code base.) -/
def parseIntJS (s : String) : JSValue :=
  let withSign : Int × List Char :=
    match s.toList.dropWhile Char.isWhitespace with
    | '-' :: cs => (-1, cs)
    | '+' :: cs => (1, cs)
    | cs => (1, cs)
  let digits := withSign.2.takeWhile Char.isDigit
  if digits.isEmpty then .nan
  else .num (withSign.1 *
    (digits.foldl (fun acc c => acc * 10 + (c.toNat - '0'.toNat)) 0 : Nat))

/-- `parseInt` applied to an arbitrary value first coerces it to a
string. -/
def parseIntJSV (v : JSValue) : JSValue :=
  parseIntJS (jsToString v)

/-- HTTP method of a request issued by the frontend. -/
inductive Method where
  | get
  | post
deriving DecidableEq

/-- An HTTP request issued through axios: method, full URL and optional
JSON body. -/
structure Request where
  method : Method
  url : String
  body : Option JSValue

/-- An axios error as seen in a `catch` block: `response` is an object
with a `data` field when the server answered, and `undefined` on a
network error; `message` is the error message string. -/
structure JsError where
  response : JSValue
  message : String

/-- Outcome of an awaited axios call: `response.data` on success, or the
error object. -/
inductive HttpOutcome where
  | ok (data : JSValue)
  | err (e : JsError)

/-- The expression `error.response?.data`: optional chaining
short-circuits to `undefined` on a nullish `response`. -/
def respDataOpt (e : JsError) : Except Unit JSValue :=
  if nullish e.response then .ok .undefined else getProp e.response "data"

/-- The expression `error.response?.data.detail`: the optional chain
guards only `response`; `.detail` is then an ordinary access on
`response.data` and throws when that is nullish. -/
def respDataDetailOpt (e : JsError) : Except Unit JSValue :=
  if nullish e.response then .ok .undefined
  else do
    let d ← getProp e.response "data"
    getProp d "detail"

example : parseIntJS "" = .nan := rfl
example : parseIntJS "new" = .nan := rfl
example : parseIntJS "42" = .num 42 := rfl
example : parseIntJS "-7" = .num (-7) := rfl
example : respDataDetailOpt ⟨.undefined, "Network Error"⟩ = .ok .undefined := rfl

namespace Signup

/-! The standalone `Signup` component (unnamed source file `part_002`). -/

structure State where
  username : String
  password : String
  message : JSValue

/-- The body of `axios.post("http://localhost:8001/signup", { username, password })`. -/
def signupBody (s : State) : JSValue :=
  .obj [("username", .str s.username), ("password", .str s.password)]

def signupRequest (s : State) : Request :=
  ⟨.post, "http://localhost:8001/signup", some (signupBody s)⟩

structure Effect where
  requests : List Request
  state : State
  userIdSet : Option JSValue
  consoleLogs : List String

/-- `handleSignup`: POST `/signup`; on success `onUserIdSet(response.data.user_id)`
and a success message; on failure
`setMessage(error.response.data.detail || "Signup failed.")` — an
unguarded property chain, computed in `Except`, and no console log. -/
def handleSignup (s : State) (outcome : HttpOutcome) : Except Unit Effect :=
  match outcome with
  | .ok resp =>
      .ok { requests := [signupRequest s]
            state := { s with message := .str "Signup successful!" }
            userIdSet := some (propOf resp "user_id")
            consoleLogs := [] }
  | .err e => do
      let data ← getProp e.response "data"
      let detail ← getProp data "detail"
      .ok { requests := [signupRequest s]
            state := { s with message := jsOr detail (.str "Signup failed.") }
            userIdSet := none
            consoleLogs := [] }

end Signup

namespace AssignQuest

/-! The `AssignQuest` component (unnamed source file `part_000`). -/

structure State where
  users : JSValue
  quests : JSValue
  selectedUser : String
  selectedQuest : String

/-- `useState([])` twice and `useState("")` twice. -/
def initialState : State := ⟨.arr [], .arr [], "", ""⟩

structure Effect where
  requests : List Request
  state : State
  consoleLogs : List String

def baseURL : String := "http://localhost:8000"

/-- `fetchUsers`: GET `/users`, stored only when `Array.isArray(response.data)`. -/
def fetchUsers (s : State) (outcome : HttpOutcome) : Effect :=
  match outcome with
  | .ok d =>
      { requests := [⟨.get, baseURL ++ "/users", none⟩]
        state := if isArray d then { s with users := d } else s
        consoleLogs := [] }
  | .err _ =>
      { requests := [⟨.get, baseURL ++ "/users", none⟩]
        state := s
        consoleLogs := ["Error fetching users:"] }

/-- `fetchQuests`: GET `/quests`, stored only when `Array.isArray(response.data)`. -/
def fetchQuests (s : State) (outcome : HttpOutcome) : Effect :=
  match outcome with
  | .ok d =>
      { requests := [⟨.get, baseURL ++ "/quests", none⟩]
        state := if isArray d then { s with quests := d } else s
        consoleLogs := [] }
  | .err _ =>
      { requests := [⟨.get, baseURL ++ "/quests", none⟩]
        state := s
        consoleLogs := ["Error fetching quests:"] }

/-- The body `{ user_id: parseInt(selectedUser), quest_id: parseInt(selectedQuest) }`. -/
def assignQuestBody (s : State) : JSValue :=
  .obj [("user_id", parseIntJS s.selectedUser),
        ("quest_id", parseIntJS s.selectedQuest)]

/-- `assignQuest`: POST `/assign-quest`; on success only the two selects
are cleared — no list is refetched; on failure a console log. -/
def assignQuest (s : State) (outcome : HttpOutcome) : Effect :=
  match outcome with
  | .ok _ =>
      { requests := [⟨.post, baseURL ++ "/assign-quest", some (assignQuestBody s)⟩]
        state := { s with selectedUser := "", selectedQuest := "" }
        consoleLogs := [] }
  | .err _ =>
      { requests := [⟨.post, baseURL ++ "/assign-quest", some (assignQuestBody s)⟩]
        state := s
        consoleLogs := ["Error assigning quest:"] }

end AssignQuest

namespace UserManagement

/-! The `UserManagement` component
(`reactjs_frontend/src/components/UserManagement.jsx`). -/

structure State where
  users : JSValue
  userName : String
  userStatus : String

/-- `useState([])`, `useState("")`, `useState("")`. -/
def initialState : State := ⟨.arr [], "", ""⟩

structure Effect where
  requests : List Request
  state : State
  consoleLogs : List String

def baseURL : String := "http://localhost:8000"

/-- `fetchUsers`: GET `/users`, stored only when `Array.isArray(response.data)`. -/
def fetchUsers (s : State) (outcome : HttpOutcome) : Effect :=
  match outcome with
  | .ok d =>
      { requests := [⟨.get, baseURL ++ "/users", none⟩]
        state := if isArray d then { s with users := d } else s
        consoleLogs := [] }
  | .err _ =>
      { requests := [⟨.get, baseURL ++ "/users", none⟩]
        state := s
        consoleLogs := ["Error fetching users:"] }

/-- The body `{ user_name: userName, status: parseInt(userStatus) }`. -/
def addUserBody (s : State) : JSValue :=
  .obj [("user_name", .str s.userName), ("status", parseIntJS s.userStatus)]

/-- `addUser`: POST `/users`; on success clear both inputs and `fetchUsers()`;
on failure `console.error("Error adding user:", error)`. -/
def addUser (s : State) (outcome refetch : HttpOutcome) : Effect :=
  match outcome with
  | .ok _ =>
      let f := fetchUsers { s with userName := "", userStatus := "" } refetch
      { requests := ⟨.post, baseURL ++ "/users", some (addUserBody s)⟩ :: f.requests
        state := f.state
        consoleLogs := f.consoleLogs }
  | .err _ =>
      { requests := [⟨.post, baseURL ++ "/users", some (addUserBody s)⟩]
        state := s
        consoleLogs := ["Error adding user:"] }

end UserManagement

namespace QuestManagement

/-! The `QuestManagement` component (unnamed source file `part_001`). -/

structure State where
  quests : JSValue
  questName : String
  questDescription : String
  rewardId : String
  autoClaim : Bool
  streak : JSValue
  duplication : JSValue

/-- `useState([])`, four text/checkbox states, `useState(0)` twice
(number inputs later store `e.target.value` strings). -/
def initialState : State := ⟨.arr [], "", "", "", false, .num 0, .num 0⟩

structure Effect where
  requests : List Request
  state : State
  consoleLogs : List String

def baseURL : String := "http://localhost:8000"

/-- `fetchQuests`: GET `/quests`, stored only when `Array.isArray(response.data)`. -/
def fetchQuests (s : State) (outcome : HttpOutcome) : Effect :=
  match outcome with
  | .ok d =>
      { requests := [⟨.get, baseURL ++ "/quests", none⟩]
        state := if isArray d then { s with quests := d } else s
        consoleLogs := [] }
  | .err _ =>
      { requests := [⟨.get, baseURL ++ "/quests", none⟩]
        state := s
        consoleLogs := ["Error fetching quests:"] }

/-- The POST `/quests` body, in source order. -/
def addQuestBody (s : State) : JSValue :=
  .obj [("reward_id", parseIntJS s.rewardId),
        ("auto_claim", .bool s.autoClaim),
        ("streak", parseIntJSV s.streak),
        ("duplication", parseIntJSV s.duplication),
        ("name", .str s.questName),
        ("description", .str s.questDescription)]

/-- `addQuest`: POST `/quests`; on success reset the form and `fetchQuests()`;
on failure `console.error("Error adding quest:", error)`. -/
def addQuest (s : State) (outcome refetch : HttpOutcome) : Effect :=
  match outcome with
  | .ok _ =>
      let f := fetchQuests
        { s with questName := "", questDescription := "", rewardId := ""
                 autoClaim := false, streak := .num 0, duplication := .num 0 }
        refetch
      { requests := ⟨.post, baseURL ++ "/quests", some (addQuestBody s)⟩ :: f.requests
        state := f.state
        consoleLogs := f.consoleLogs }
  | .err _ =>
      { requests := [⟨.post, baseURL ++ "/quests", some (addQuestBody s)⟩]
        state := s
        consoleLogs := ["Error adding quest:"] }

end QuestManagement

namespace RewardManagement

/-! The `RewardManagement` component (unnamed source file `part_004`). -/

structure State where
  rewards : JSValue
  rewardName : String
  rewardItem : String
  rewardQty : JSValue

/-- `useState([])`, `useState("")` twice, `useState(0)`. -/
def initialState : State := ⟨.arr [], "", "", .num 0⟩

structure Effect where
  requests : List Request
  state : State
  consoleLogs : List String

def baseURL : String := "http://localhost:8000"

/-- `fetchRewards`: GET `/rewards`, stored only when `Array.isArray(response.data)`. -/
def fetchRewards (s : State) (outcome : HttpOutcome) : Effect :=
  match outcome with
  | .ok d =>
      { requests := [⟨.get, baseURL ++ "/rewards", none⟩]
        state := if isArray d then { s with rewards := d } else s
        consoleLogs := [] }
  | .err _ =>
      { requests := [⟨.get, baseURL ++ "/rewards", none⟩]
        state := s
        consoleLogs := ["Error fetching rewards:"] }

/-- The POST `/rewards` body, in source order. -/
def addRewardBody (s : State) : JSValue :=
  .obj [("reward_name", .str s.rewardName),
        ("reward_item", .str s.rewardItem),
        ("reward_qty", parseIntJSV s.rewardQty)]

/-- `addReward`: POST `/rewards`; on success reset the form and
`fetchRewards()`; on failure `console.error("Error adding reward:", error)`. -/
def addReward (s : State) (outcome refetch : HttpOutcome) : Effect :=
  match outcome with
  | .ok _ =>
      let f := fetchRewards
        { s with rewardName := "", rewardItem := "", rewardQty := .num 0 }
        refetch
      { requests := ⟨.post, baseURL ++ "/rewards", some (addRewardBody s)⟩ :: f.requests
        state := f.state
        consoleLogs := f.consoleLogs }
  | .err _ =>
      { requests := [⟨.post, baseURL ++ "/rewards", some (addRewardBody s)⟩]
        state := s
        consoleLogs := ["Error adding reward:"] }

end RewardManagement

namespace QuestStatus

/-! The `QuestStatus` component (`fe-quest/src/QuestStatus.jsx`). -/

/-- One rendered line: `Quest ID: {quest.quest_id} - Progress:
{quest.progress} - Reward: {quest.reward}`. -/
structure Entry where
  quest_id : JSValue
  progress : JSValue
  reward : JSValue

/-- What the component renders for its quest list. -/
inductive View where
  | noQuests
  | entryList (entries : List Entry)

def renderEntry (q : JSValue) : Entry :=
  ⟨propOf q "quest_id", propOf q "progress", propOf q "reward"⟩

/-- `quests.length === 0 ? <p>No quests found.</p> : <ul>…one `<li>` per
quest…</ul>`. -/
def render (quests : List JSValue) : View :=
  if quests.length = 0 then .noQuests
  else .entryList (quests.map renderEntry)

/-- The GET issued by the effect for a given `userId` prop. -/
def questStatusGet (userId : String) : Request :=
  ⟨.get, "http://localhost:8003/user-quests/" ++ userId, none⟩

/-- React's effect semantics for `useEffect(…, [userId])`: given the
previously seen dependency (none on mount), decide whether the effect
body runs on this render and record the new dependency. -/
def effectStep (prev : Option String) (userId : String) :
    Option Request × Option String :=
  match prev with
  | none => (some (questStatusGet userId), some userId)
  | some p => if userId = p then (none, some userId)
              else (some (questStatusGet userId), some userId)

end QuestStatus

namespace FeQuestApp

/-! The main `App` component (`fe-quest/src/App.jsx`). -/

def AUTH_SERVICE_URL : String := "http://localhost:8001"
def QUEST_CATALOG_URL : String := "http://localhost:8002"
def QUEST_PROCESSING_URL : String := "http://localhost:8003"

/-- `useState({ user_name: "", password: "", status: "new" })`. -/
structure SignupData where
  user_name : String
  password : String
  status : String

/-- `useState({ user_name: "", password: "" })`. -/
structure LoginData where
  user_name : String
  password : String

structure State where
  signupData : SignupData
  loginData : LoginData
  token : JSValue
  storedToken : Option JSValue
  user : JSValue
  quests : JSValue
  assignQuestData : JSValue
  userQuests : JSValue
  message : JSValue

structure Effect where
  requests : List Request
  state : State
  consoleLogs : List String
  alerts : List String

/-- The signup body is the whole `signupData` object:
`{ user_name, password, status }`. -/
def signupBody (d : SignupData) : JSValue :=
  .obj [("user_name", .str d.user_name),
        ("password", .str d.password),
        ("status", .str d.status)]

def signupRequest (s : State) : Request :=
  ⟨.post, AUTH_SERVICE_URL ++ "/signup", some (signupBody s.signupData)⟩

/-- `handleSignup`: POST `/signup`; on success store the token in state
and under the localStorage key `token`; on failure log and set a
transient message built from `error.response?.data.detail || error.message`. -/
def handleSignup (s : State) (outcome : HttpOutcome) : Except Unit Effect :=
  match outcome with
  | .ok resp =>
      let tok := propOf resp "access_token"
      .ok { requests := [signupRequest s]
            state := { s with token := tok, storedToken := some tok
                              message := .str "Signup successful!" }
            consoleLogs := [], alerts := [] }
  | .err e => do
      let _ ← respDataOpt e
      let detail ← respDataDetailOpt e
      .ok { requests := [signupRequest s]
            state := { s with message := .str ("Signup failed: " ++ jsToString (jsOr detail (.str e.message))) }
            consoleLogs := ["Signup error:"], alerts := [] }

def loginBody (d : LoginData) : JSValue :=
  .obj [("user_name", .str d.user_name), ("password", .str d.password)]

def loginRequest (s : State) : Request :=
  ⟨.post, AUTH_SERVICE_URL ++ "/login", some (loginBody s.loginData)⟩

/-- `handleLogin`, same shape as `handleSignup` against `/login`. -/
def handleLogin (s : State) (outcome : HttpOutcome) : Except Unit Effect :=
  match outcome with
  | .ok resp =>
      let tok := propOf resp "access_token"
      .ok { requests := [loginRequest s]
            state := { s with token := tok, storedToken := some tok
                              message := .str "Login successful!" }
            consoleLogs := [], alerts := [] }
  | .err e => do
      let _ ← respDataOpt e
      let detail ← respDataDetailOpt e
      .ok { requests := [loginRequest s]
            state := { s with message := .str ("Login failed: " ++ jsToString (jsOr detail (.str e.message))) }
            consoleLogs := ["Login error:"], alerts := [] }

def fetchUserRequest (uid : JSValue) : Request :=
  ⟨.get, AUTH_SERVICE_URL ++ "/users/" ++ jsToString uid, none⟩

/-- `fetchUser(user_id)`: GET `/users/{user_id}`; on success `setUser`. -/
def fetchUser (s : State) (uid : JSValue) (outcome : HttpOutcome) : Effect :=
  match outcome with
  | .ok resp =>
      { requests := [fetchUserRequest uid]
        state := { s with user := resp }
        consoleLogs := [], alerts := [] }
  | .err _ =>
      { requests := [fetchUserRequest uid]
        state := s
        consoleLogs := ["Error fetching user:"], alerts := [] }

/-- `fetchQuests`: GET `/quests/`; `setQuests(response.data)` with no
array guard. -/
def fetchQuests (s : State) (outcome : HttpOutcome) : Effect :=
  match outcome with
  | .ok resp =>
      { requests := [⟨.get, QUEST_CATALOG_URL ++ "/quests/", none⟩]
        state := { s with quests := resp }
        consoleLogs := [], alerts := [] }
  | .err _ =>
      { requests := [⟨.get, QUEST_CATALOG_URL ++ "/quests/", none⟩]
        state := s
        consoleLogs := ["Error fetching quests:"], alerts := [] }

def userQuestsRequest (s : State) : Request :=
  ⟨.get, QUEST_PROCESSING_URL ++ "/user-quests/" ++
    jsToString (propOf s.user "user_id") ++ "/", none⟩

/-- `fetchUserQuests`: if `!user` only an alert; else GET
`/user-quests/{user.user_id}/` and `setUserQuests` on success. -/
def fetchUserQuests (s : State) (outcome : HttpOutcome) : Effect :=
  if !truthy s.user then
    { requests := [], state := s, consoleLogs := []
      alerts := ["Please log in first."] }
  else
    match outcome with
    | .ok resp =>
        { requests := [userQuestsRequest s]
          state := { s with userQuests := resp }
          consoleLogs := [], alerts := [] }
    | .err _ =>
        { requests := [userQuestsRequest s]
          state := s
          consoleLogs := ["Error fetching user quests:"], alerts := [] }

/-- `{ user_id: user.user_id, quest_id: parseInt(quest_id) }`. -/
def assignQuestBody (s : State) (quest_id : JSValue) : JSValue :=
  .obj [("user_id", propOf s.user "user_id"),
        ("quest_id", parseIntJSV quest_id)]

def assignQuestRequest (s : State) (quest_id : JSValue) : Request :=
  ⟨.post, QUEST_PROCESSING_URL ++ "/assign-quest/", some (assignQuestBody s quest_id)⟩

/-- `assignQuest(e, quest_id)`: if `!user` only an alert; else POST
`/assign-quest/`, and on success a message followed by `fetchUserQuests()`. -/
def assignQuest (s : State) (quest_id : JSValue) (outcome uq : HttpOutcome) :
    Except Unit Effect :=
  if !truthy s.user then
    .ok { requests := [], state := s, consoleLogs := []
          alerts := ["Please log in first."] }
  else
    match outcome with
    | .ok _ =>
        let f := fetchUserQuests { s with message := .str "Quest assigned successfully!" } uq
        .ok { requests := assignQuestRequest s quest_id :: f.requests
              state := f.state, consoleLogs := f.consoleLogs, alerts := f.alerts }
    | .err e => do
        let _ ← respDataOpt e
        let detail ← respDataDetailOpt e
        .ok { requests := [assignQuestRequest s quest_id]
              state := { s with message := .str ("Assign quest failed: " ++ jsToString (jsOr detail (.str e.message))) }
              consoleLogs := ["Error assigning quest:"], alerts := [] }

/-- `{ user_id: user.user_id, quest_id: quest_id }` (no `parseInt` here). -/
def completeQuestBody (s : State) (quest_id : JSValue) : JSValue :=
  .obj [("user_id", propOf s.user "user_id"), ("quest_id", quest_id)]

/-- `completeQuest(quest_id)`: if `!user` only an alert; else POST
`/complete-quest/`; on success a message, `fetchUserQuests()` and
`fetchUser(user.user_id)`. -/
def completeQuest (s : State) (quest_id : JSValue) (outcome uq userOut : HttpOutcome) :
    Except Unit Effect :=
  if !truthy s.user then
    .ok { requests := [], state := s, consoleLogs := []
          alerts := ["Please log in first."] }
  else
    let req : Request :=
      ⟨.post, QUEST_PROCESSING_URL ++ "/complete-quest/", some (completeQuestBody s quest_id)⟩
    match outcome with
    | .ok _ =>
        let f := fetchUserQuests { s with message := .str "Quest completed successfully!" } uq
        let g := fetchUser f.state (propOf s.user "user_id") userOut
        .ok { requests := req :: (f.requests ++ g.requests)
              state := g.state
              consoleLogs := f.consoleLogs ++ g.consoleLogs
              alerts := f.alerts ++ g.alerts }
    | .err e => do
        let _ ← respDataOpt e
        let detail ← respDataDetailOpt e
        .ok { requests := [req]
              state := { s with message := .str ("Complete quest failed: " ++ jsToString (jsOr detail (.str e.message))) }
              consoleLogs := ["Error completing quest:"], alerts := [] }

/-- `claimQuest(quest_id)`: logs `"ok"` and alerts unconditionally, then
if `!user` a second alert and return; else POST `/claim-quest/`; on
success a message, `fetchUserQuests()` and `fetchUser(user.user_id)`. -/
def claimQuest (s : State) (quest_id : JSValue) (outcome uq userOut : HttpOutcome) :
    Except Unit Effect :=
  if !truthy s.user then
    .ok { requests := [], state := s, consoleLogs := ["ok"]
          alerts := ["Please log in first.", "Please log in first."] }
  else
    let req : Request :=
      ⟨.post, QUEST_PROCESSING_URL ++ "/claim-quest/", some (completeQuestBody s quest_id)⟩
    match outcome with
    | .ok _ =>
        let f := fetchUserQuests { s with message := .str "Quest claimed and reward granted!" } uq
        let g := fetchUser f.state (propOf s.user "user_id") userOut
        .ok { requests := req :: (f.requests ++ g.requests)
              state := g.state
              consoleLogs := "ok" :: (f.consoleLogs ++ g.consoleLogs)
              alerts := "Please log in first." :: (f.alerts ++ g.alerts) }
    | .err e => do
        let _ ← respDataOpt e
        let detail ← respDataDetailOpt e
        .ok { requests := [req]
              state := { s with message := .str ("Claim quest failed: " ++ jsToString (jsOr detail (.str e.message))) }
              consoleLogs := ["ok", "Error claiming quest:"]
              alerts := ["Please log in first."] }

/-- `handleLogout`: clear the token state and the stored token, reset
`user` and `userQuests`, set the message. -/
def handleLogout (s : State) : Effect :=
  { requests := []
    state := { s with token := .str "", storedToken := none, user := .null
                      userQuests := .arr [], message := .str "Logged out successfully!" }
    consoleLogs := [], alerts := [] }

/-- JavaScript `String.prototype.split` with a one-character separator,
on the character list. -/
def splitOnChar (c : Char) : List Char → List (List Char)
  | [] => [[]]
  | x :: xs =>
      let r := splitOnChar c xs
      if x = c then [] :: r
      else
        match r with
        | [] => [[x]]
        | y :: ys => (x :: y) :: ys

/-- `token.split(".")`. -/
def jsSplitDot (s : String) : List String :=
  (splitOnChar '.' s.toList).map fun cs => ⟨cs⟩

/-- `token.split(".")[1]`, coerced to the string `"undefined"` when the
index is out of range (as `atob` coerces its argument to a string). -/
def payloadOf (token : String) : String :=
  ((jsSplitDot token).get? 1).getD "undefined"

/-- `decodeToken`: the whole body runs inside `try { … } catch { return null }`;
`prim` models `JSON.parse(atob(·))`, whose failures (`none`) the catch
turns into `null`. -/
def decodeToken (prim : String → Option JSValue) (token : String) : JSValue :=
  (prim (payloadOf token)).getD .null

/-- The requests issued by the `useEffect(…, [token])` body: `fetchUser`
is called only when `token` is truthy, decoding succeeded and the decoded
payload has a truthy `user_id`. -/
def tokenEffectRequests (prim : String → Option JSValue) (token : String) :
    List Request :=
  if truthy (.str token) then
    let decoded := decodeToken prim token
    if truthy decoded && truthy (propOf decoded "user_id") then
      [fetchUserRequest (propOf decoded "user_id")]
    else []
  else []

end FeQuestApp

namespace GatewayApp

/-! The gateway `App` component (unnamed source file `part_003`). -/

def API_GATEWAY_URL : String := "http://localhost:8000"

/-- `useState({ username: "", password: "" })` (both forms). -/
structure Credentials where
  username : String
  password : String

structure State where
  signupData : Credentials
  loginData : Credentials
  token : JSValue
  storedToken : Option JSValue
  user : JSValue
  rewards : JSValue
  quests : JSValue
  userQuests : JSValue
  message : JSValue
  activeTab : String

structure Effect where
  requests : List Request
  state : State
  consoleLogs : List String

/-- `showMessage(msg, type)` stores `{ text: msg, type }` (the 5s
clearing timeout is not modelled). -/
def showMsgVal (text kind : String) : JSValue :=
  .obj [("text", .str text), ("type", .str kind)]

/-- The signup body is the whole `signupData` object: `{ username, password }`. -/
def signupBody (d : Credentials) : JSValue :=
  .obj [("username", .str d.username), ("password", .str d.password)]

def signupRequest (s : State) : Request :=
  ⟨.post, API_GATEWAY_URL ++ "/signup", some (signupBody s.signupData)⟩

/-- `handleSignup`: POST `/signup`; on success store the token in state
and localStorage, show a message and reset the form. -/
def handleSignup (s : State) (outcome : HttpOutcome) : Except Unit Effect :=
  match outcome with
  | .ok resp =>
      let tok := propOf resp "access_token"
      .ok { requests := [signupRequest s]
            state := { s with token := tok, storedToken := some tok
                              message := showMsgVal "Signup successful!" "success"
                              signupData := ⟨"", ""⟩ }
            consoleLogs := [] }
  | .err e => do
      let _ ← respDataOpt e
      let detail ← respDataDetailOpt e
      .ok { requests := [signupRequest s]
            state := { s with message := showMsgVal ("Signup failed: " ++ jsToString (jsOr detail (.str e.message))) "error" }
            consoleLogs := ["Signup error:"] }

def loginRequest (s : State) : Request :=
  ⟨.post, API_GATEWAY_URL ++ "/login", some (signupBody s.loginData)⟩

/-- `handleLogin`: POST `/login`; on success store the token in state and
localStorage, reset the form and switch to the quests tab. -/
def handleLogin (s : State) (outcome : HttpOutcome) : Except Unit Effect :=
  match outcome with
  | .ok resp =>
      let tok := propOf resp "access_token"
      .ok { requests := [loginRequest s]
            state := { s with token := tok, storedToken := some tok
                              message := showMsgVal "Login successful!" "success"
                              loginData := ⟨"", ""⟩, activeTab := "quests" }
            consoleLogs := [] }
  | .err e => do
      let _ ← respDataOpt e
      let detail ← respDataDetailOpt e
      .ok { requests := [loginRequest s]
            state := { s with message := showMsgVal ("Login failed: " ++ jsToString (jsOr detail (.str e.message))) "error" }
            consoleLogs := ["Login error:"] }

/-- `handleLogout`: clear token state and storage, reset `user`,
`userQuests` and the active tab. -/
def handleLogout (s : State) : Effect :=
  { requests := []
    state := { s with token := .str "", storedToken := none, user := .null
                      userQuests := .arr []
                      message := showMsgVal "Logged out successfully!" "success"
                      activeTab := "admin" }
    consoleLogs := [] }

def userQuestsRequest (s : State) : Request :=
  ⟨.get, API_GATEWAY_URL ++ "/user-quests/" ++
    jsToString (propOf s.user "user_id") ++ "/", none⟩

/-- `fetchUserQuests`: if `!user` only `showMessage("Please log in first",
"error")`; else GET `/user-quests/{user.user_id}/`. -/
def fetchUserQuests (s : State) (outcome : HttpOutcome) : Effect :=
  if !truthy s.user then
    { requests := []
      state := { s with message := showMsgVal "Please log in first" "error" }
      consoleLogs := [] }
  else
    match outcome with
    | .ok resp =>
        { requests := [userQuestsRequest s]
          state := { s with userQuests := resp
                            message := showMsgVal "Your quests fetched successfully!" "success" }
          consoleLogs := [] }
    | .err _ =>
        { requests := [userQuestsRequest s]
          state := { s with message := showMsgVal "Error fetching your quests" "error" }
          consoleLogs := ["Error fetching user quests:"] }

/-- `{ user_id: user.user_id, quest_id: parseInt(quest_id) }`. -/
def assignQuestBody (s : State) (quest_id : JSValue) : JSValue :=
  .obj [("user_id", propOf s.user "user_id"),
        ("quest_id", parseIntJSV quest_id)]

def assignQuestRequest (s : State) (quest_id : JSValue) : Request :=
  ⟨.post, API_GATEWAY_URL ++ "/assign-quest/", some (assignQuestBody s quest_id)⟩

/-- `assignQuest(quest_id)`: if `!user` only a message; else POST
`/assign-quest/` and on success a message followed by `fetchUserQuests()`. -/
def assignQuest (s : State) (quest_id : JSValue) (outcome uq : HttpOutcome) :
    Except Unit Effect :=
  if !truthy s.user then
    .ok { requests := []
          state := { s with message := showMsgVal "Please log in first" "error" }
          consoleLogs := [] }
  else
    match outcome with
    | .ok _ =>
        let f := fetchUserQuests
          { s with message := showMsgVal "Quest assigned successfully!" "success" } uq
        .ok { requests := assignQuestRequest s quest_id :: f.requests
              state := f.state, consoleLogs := f.consoleLogs }
    | .err e => do
        let _ ← respDataOpt e
        let detail ← respDataDetailOpt e
        .ok { requests := [assignQuestRequest s quest_id]
              state := { s with message := showMsgVal ("Error assigning quest: " ++ jsToString (jsOr detail (.str e.message))) "error" }
              consoleLogs := ["Error assigning quest:"] }

end GatewayApp

example : FeQuestApp.jsSplitDot "a.b.c" = ["a", "b", "c"] := rfl
example : FeQuestApp.jsSplitDot "abc" = ["abc"] := rfl
example : FeQuestApp.jsSplitDot "" = [""] := rfl
example : FeQuestApp.payloadOf "abc" = "undefined" := rfl
example : jsToString (.str "x") = "x" := rfl
example : jsToString (.num 5) = "5" := rfl

/-- The field names of a JSON object body, in order. -/
def fieldNames : JSValue → List String
  | .obj fs => fs.map Prod.fst
  | _ => []

/-- A fe-quest `App` state with no user logged in. -/
def feState0 : FeQuestApp.State :=
  ⟨⟨"", "", "new"⟩, ⟨"", ""⟩, .str "", none, .null, .arr [],
   .obj [("quest_id", .str "")], .arr [], .str ""⟩

/-- A gateway `App` state with no user logged in. -/
def gwState0 : GatewayApp.State :=
  ⟨⟨"", ""⟩, ⟨"", ""⟩, .str "", none, .null, .arr [], .arr [], .arr [],
   .str "", "admin"⟩

/-- A fe-quest `App` state with a logged-in user. -/
def feState1 : FeQuestApp.State :=
  { feState0 with user := .obj [("user_id", .num 7)] }

/-- C1, counterexample: in the standalone `Signup` component the error
handler evaluates `error.response.data.detail` without a guard, so for a
network error whose `error.response` is `undefined` the error-handling
path itself throws a `TypeError` (and nothing is logged to the console),
refuting the claim that no error-handling path raises an exception. -/
theorem c1_counterexample :
    Signup.handleSignup ⟨"alice", "pw", .str ""⟩
      (.err ⟨.undefined, "Network Error"⟩) = .error () := rfl

/-- C1, amended: failures are caught at the call site and surfaced at
most as a transient message.  The management components' catch blocks
only log to the console and cannot throw, for any error shape.  The
fe-quest and gateway `App` handlers log and set a message without
throwing on a network error whose `error.response` is `undefined`, but
their message expression `error.response?.data.detail` guards only
`response`: the error-handling path itself throws whenever a response is
present whose `data` is nullish.  The standalone `Signup` component's
handler neither logs nor survives even the network error, per the
counterexample. -/
theorem c1_amended :
    (∀ (s : UserManagement.State) (e : JsError),
      UserManagement.addUser s (.err e) (.ok (.arr [])) =
        ⟨[⟨.post, UserManagement.baseURL ++ "/users",
            some (UserManagement.addUserBody s)⟩],
         s, ["Error adding user:"]⟩)
    ∧ (∀ (s : QuestManagement.State) (e : JsError),
      QuestManagement.addQuest s (.err e) (.ok (.arr [])) =
        ⟨[⟨.post, QuestManagement.baseURL ++ "/quests",
            some (QuestManagement.addQuestBody s)⟩],
         s, ["Error adding quest:"]⟩)
    ∧ (∀ (s : RewardManagement.State) (e : JsError),
      RewardManagement.addReward s (.err e) (.ok (.arr [])) =
        ⟨[⟨.post, RewardManagement.baseURL ++ "/rewards",
            some (RewardManagement.addRewardBody s)⟩],
         s, ["Error adding reward:"]⟩)
    ∧ (∀ (s : AssignQuest.State) (e : JsError),
      AssignQuest.assignQuest s (.err e) =
        ⟨[⟨.post, AssignQuest.baseURL ++ "/assign-quest",
            some (AssignQuest.assignQuestBody s)⟩],
         s, ["Error assigning quest:"]⟩)
    ∧ (∀ (s : FeQuestApp.State) (e : JsError), e.response = .undefined →
      FeQuestApp.handleSignup s (.err e) =
        .ok ⟨[FeQuestApp.signupRequest s],
             { s with message := .str ("Signup failed: " ++ e.message) },
             ["Signup error:"], []⟩)
    ∧ (∀ (s : FeQuestApp.State) (e : JsError), e.response = .undefined →
      FeQuestApp.handleLogin s (.err e) =
        .ok ⟨[FeQuestApp.loginRequest s],
             { s with message := .str ("Login failed: " ++ e.message) },
             ["Login error:"], []⟩)
    ∧ (∀ (s : GatewayApp.State) (e : JsError), e.response = .undefined →
      GatewayApp.handleSignup s (.err e) =
        .ok ⟨[GatewayApp.signupRequest s],
             { s with message :=
                 GatewayApp.showMsgVal ("Signup failed: " ++ e.message) "error" },
             ["Signup error:"]⟩)
    ∧ (∀ (s : GatewayApp.State) (e : JsError), e.response = .undefined →
      GatewayApp.handleLogin s (.err e) =
        .ok ⟨[GatewayApp.loginRequest s],
             { s with message :=
                 GatewayApp.showMsgVal ("Login failed: " ++ e.message) "error" },
             ["Login error:"]⟩)
    ∧ (∀ (s : FeQuestApp.State) (qid : JSValue) (e : JsError) (uq : HttpOutcome),
        e.response = .undefined → truthy s.user = true →
      FeQuestApp.assignQuest s qid (.err e) uq =
        .ok ⟨[FeQuestApp.assignQuestRequest s qid],
             { s with message := .str ("Assign quest failed: " ++ e.message) },
             ["Error assigning quest:"], []⟩)
    ∧ (∀ (s : FeQuestApp.State) (qid : JSValue) (e : JsError) (uq uo : HttpOutcome),
        e.response = .undefined → truthy s.user = true →
      FeQuestApp.completeQuest s qid (.err e) uq uo =
        .ok ⟨[⟨.post, FeQuestApp.QUEST_PROCESSING_URL ++ "/complete-quest/",
                some (FeQuestApp.completeQuestBody s qid)⟩],
             { s with message := .str ("Complete quest failed: " ++ e.message) },
             ["Error completing quest:"], []⟩)
    ∧ (∀ (s : FeQuestApp.State) (qid : JSValue) (e : JsError) (uq uo : HttpOutcome),
        e.response = .undefined → truthy s.user = true →
      FeQuestApp.claimQuest s qid (.err e) uq uo =
        .ok ⟨[⟨.post, FeQuestApp.QUEST_PROCESSING_URL ++ "/claim-quest/",
                some (FeQuestApp.completeQuestBody s qid)⟩],
             { s with message := .str ("Claim quest failed: " ++ e.message) },
             ["ok", "Error claiming quest:"], ["Please log in first."]⟩)
    ∧ (∀ (s : FeQuestApp.State) (m : String),
      FeQuestApp.handleSignup s (.err ⟨.obj [("data", .null)], m⟩) = .error ())
    ∧ (∀ (s : FeQuestApp.State) (m : String),
      FeQuestApp.handleLogin s (.err ⟨.obj [("data", .null)], m⟩) = .error ())
    ∧ (∀ (s : GatewayApp.State) (m : String),
      GatewayApp.handleSignup s (.err ⟨.obj [("data", .null)], m⟩) = .error ())
    ∧ (∀ (s : GatewayApp.State) (m : String),
      GatewayApp.handleLogin s (.err ⟨.obj [("data", .null)], m⟩) = .error ()) := by
  refine ⟨fun s e => rfl, fun s e => rfl, fun s e => rfl, fun s e => rfl,
          ?_, ?_, ?_, ?_, ?_, ?_, ?_,
          fun s m => rfl, fun s m => rfl, fun s m => rfl, fun s m => rfl⟩
  · intro s e h
    obtain ⟨r, m⟩ := e
    cases h
    rfl
  · intro s e h
    obtain ⟨r, m⟩ := e
    cases h
    rfl
  · intro s e h
    obtain ⟨r, m⟩ := e
    cases h
    rfl
  · intro s e h
    obtain ⟨r, m⟩ := e
    cases h
    rfl
  · intro s qid e uq h hu
    obtain ⟨r, m⟩ := e
    cases h
    unfold FeQuestApp.assignQuest
    rw [hu]
    rfl
  · intro s qid e uq uo h hu
    obtain ⟨r, m⟩ := e
    cases h
    unfold FeQuestApp.completeQuest
    rw [hu]
    rfl
  · intro s qid e uq uo h hu
    obtain ⟨r, m⟩ := e
    cases h
    unfold FeQuestApp.claimQuest
    rw [hu]
    rfl

/-- C1 witness: concrete network errors are survived, logged and turned
into transient messages by the fe-quest signup handler, the gateway
signup handler and the fe-quest assign handler with a logged-in user. -/
theorem c1_amended_witness :
    FeQuestApp.handleSignup feState0 (.err ⟨.undefined, "Network Error"⟩) =
      .ok ⟨[FeQuestApp.signupRequest feState0],
           { feState0 with message := .str "Signup failed: Network Error" },
           ["Signup error:"], []⟩ ∧
    GatewayApp.handleSignup gwState0 (.err ⟨.undefined, "Network Error"⟩) =
      .ok ⟨[GatewayApp.signupRequest gwState0],
           { gwState0 with message :=
               GatewayApp.showMsgVal "Signup failed: Network Error" "error" },
           ["Signup error:"]⟩ ∧
    FeQuestApp.assignQuest feState1 (.num 2)
        (.err ⟨.undefined, "Network Error"⟩) (.ok (.arr [])) =
      .ok ⟨[FeQuestApp.assignQuestRequest feState1 (.num 2)],
           { feState1 with message := .str "Assign quest failed: Network Error" },
           ["Error assigning quest:"], []⟩ :=
  ⟨c1_amended.2.2.2.2.1 feState0 ⟨.undefined, "Network Error"⟩ rfl,
   c1_amended.2.2.2.2.2.2.1 gwState0 ⟨.undefined, "Network Error"⟩ rfl,
   c1_amended.2.2.2.2.2.2.2.2.1 feState1 (.num 2)
     ⟨.undefined, "Network Error"⟩ (.ok (.arr [])) rfl rfl⟩

/-- C2, counterexample: the fe-quest `App` signup form does not post a
body containing exactly the fields `username` and `password` — it posts
`{ user_name, password, status }` (note the different field name and the
extra field). -/
theorem c2_counterexample :
    fieldNames (FeQuestApp.signupBody ⟨"alice", "pw", "new"⟩) =
      ["user_name", "password", "status"] ∧
    fieldNames (FeQuestApp.signupBody ⟨"alice", "pw", "new"⟩) ≠
      ["username", "password"] := by
  exact ⟨rfl, by decide⟩

/-- C2, amended: the standalone `Signup` component and the gateway `App`
post exactly the fields `username` and `password` to `/signup`, while the
fe-quest `App` posts `{ user_name, password, status }` instead; in each
component the success path takes `access_token` (and, in the standalone
`Signup`, `user_id`) from `response.data` exactly as documented. -/
theorem c2_amended :
    (∀ s : Signup.State, Signup.signupRequest s =
      ⟨.post, "http://localhost:8001/signup",
        some (.obj [("username", .str s.username), ("password", .str s.password)])⟩)
    ∧ (∀ s : GatewayApp.State, GatewayApp.signupRequest s =
      ⟨.post, GatewayApp.API_GATEWAY_URL ++ "/signup",
        some (.obj [("username", .str s.signupData.username),
                    ("password", .str s.signupData.password)])⟩)
    ∧ (∀ s : FeQuestApp.State, FeQuestApp.signupRequest s =
      ⟨.post, FeQuestApp.AUTH_SERVICE_URL ++ "/signup",
        some (.obj [("user_name", .str s.signupData.user_name),
                    ("password", .str s.signupData.password),
                    ("status", .str s.signupData.status)])⟩)
    ∧ (∀ (s : Signup.State) (resp : JSValue),
      Signup.handleSignup s (.ok resp) =
        .ok ⟨[Signup.signupRequest s],
             { s with message := .str "Signup successful!" },
             some (propOf resp "user_id"), []⟩)
    ∧ (∀ (s : FeQuestApp.State) (resp : JSValue), ∃ e,
      FeQuestApp.handleSignup s (.ok resp) = .ok e ∧
        e.state.token = propOf resp "access_token")
    ∧ (∀ (s : GatewayApp.State) (resp : JSValue), ∃ e,
      GatewayApp.handleSignup s (.ok resp) = .ok e ∧
        e.state.token = propOf resp "access_token") :=
  ⟨fun _ => rfl, fun _ => rfl, fun _ => rfl, fun _ _ => rfl,
   fun _ _ => ⟨_, rfl, rfl⟩, fun _ _ => ⟨_, rfl, rfl⟩⟩

/-- C3, counterexample: in the `AssignQuest` component a successful POST
`/assign-quest` is followed by no refetch at all — the complete request
list of the submission is the single POST, with no GET re-issued for the
users or quests lists the component displays. -/
theorem c3_counterexample :
    AssignQuest.assignQuest ⟨.arr [], .arr [], "1", "2"⟩ (.ok (.arr [])) =
      ⟨[⟨.post, "http://localhost:8000/assign-quest",
          some (.obj [("user_id", .num 1), ("quest_id", .num 2)])⟩],
       ⟨.arr [], .arr [], "", ""⟩, []⟩ := rfl

/-- C3, amended: every create form (users, quests, rewards) refetches the
list it displays after a successful POST — the submission's requests are
exactly the POST followed by the list GET — but the `AssignQuest`
component does not: a successful `/assign-quest` POST only clears the two
selections and issues no GET. -/
theorem c3_amended :
    (∀ (s : UserManagement.State) (d : JSValue) (refetch : HttpOutcome),
      (UserManagement.addUser s (.ok d) refetch).requests =
        [⟨.post, UserManagement.baseURL ++ "/users", some (UserManagement.addUserBody s)⟩,
         ⟨.get, UserManagement.baseURL ++ "/users", none⟩])
    ∧ (∀ (s : QuestManagement.State) (d : JSValue) (refetch : HttpOutcome),
      (QuestManagement.addQuest s (.ok d) refetch).requests =
        [⟨.post, QuestManagement.baseURL ++ "/quests", some (QuestManagement.addQuestBody s)⟩,
         ⟨.get, QuestManagement.baseURL ++ "/quests", none⟩])
    ∧ (∀ (s : RewardManagement.State) (d : JSValue) (refetch : HttpOutcome),
      (RewardManagement.addReward s (.ok d) refetch).requests =
        [⟨.post, RewardManagement.baseURL ++ "/rewards", some (RewardManagement.addRewardBody s)⟩,
         ⟨.get, RewardManagement.baseURL ++ "/rewards", none⟩])
    ∧ (∀ (s : AssignQuest.State) (d : JSValue),
      AssignQuest.assignQuest s (.ok d) =
        ⟨[⟨.post, AssignQuest.baseURL ++ "/assign-quest", some (AssignQuest.assignQuestBody s)⟩],
         { s with selectedUser := "", selectedQuest := "" }, []⟩) := by
  refine ⟨?_, ?_, ?_, fun s d => rfl⟩ <;>
    rintro s d (d' | e) <;> rfl

/-- C4, counterexample: the one user-creation form posts
`status: parseInt(userStatus)`; for the input `"new"` the body's `status`
is `NaN`, which is not an element of the enumeration
`{new, not_new, banned}`. -/
theorem c4_counterexample :
    UserManagement.addUserBody ⟨.arr [], "alice", "new"⟩ =
      .obj [("user_name", .str "alice"), ("status", .nan)] ∧
    (JSValue.nan ≠ .str "new" ∧ JSValue.nan ≠ .str "not_new" ∧
     JSValue.nan ≠ .str "banned") := by
  refine ⟨rfl, ?_, ?_, ?_⟩ <;> intro h <;> cases h

/-- C4, amended: every user-creation submission issues POST `/users` with
body fields exactly `user_name` and `status`, but the `status` value sent
is `parseInt` of the free-text status input — an integer when the input
is numeric and `NaN` otherwise — never one of the enumerated strings
`{new, not_new, banned}`, which appear only in the fe-quest signup form's
select (posted to `/signup`). -/
theorem c4_amended :
    (∀ s : UserManagement.State,
      fieldNames (UserManagement.addUserBody s) = ["user_name", "status"])
    ∧ (∀ s : UserManagement.State, UserManagement.addUserBody s =
        .obj [("user_name", .str s.userName), ("status", parseIntJS s.userStatus)])
    ∧ (∀ x : String, parseIntJS x = .nan ∨ ∃ n : Int, parseIntJS x = .num n)
    ∧ (∀ (s : UserManagement.State) (o refetch : HttpOutcome),
      (UserManagement.addUser s o refetch).requests.head? =
        some ⟨.post, UserManagement.baseURL ++ "/users",
              some (UserManagement.addUserBody s)⟩)
    ∧ (∀ st : String, FeQuestApp.signupBody ⟨"u", "p", st⟩ =
        .obj [("user_name", .str "u"), ("password", .str "p"), ("status", .str st)]) := by
  refine ⟨fun s => rfl, fun s => rfl, ?_, ?_, fun st => rfl⟩
  · intro x
    unfold parseIntJS
    split <;> simp only [] <;> split <;>
      first
      | exact Or.inl rfl
      | exact Or.inr ⟨_, rfl⟩
  · rintro s (d | e) refetch <;> rfl

/-- C5: after every successful signup or login, in both App components,
the token state equals the value stored under the localStorage key
`token`; after logout the token state is cleared to `""` and the stored
value is removed. -/
theorem c5_token_storage_sync :
    (∀ (s : FeQuestApp.State) (resp : JSValue), ∃ e,
      FeQuestApp.handleSignup s (.ok resp) = .ok e ∧
        e.state.storedToken = some e.state.token)
    ∧ (∀ (s : FeQuestApp.State) (resp : JSValue), ∃ e,
      FeQuestApp.handleLogin s (.ok resp) = .ok e ∧
        e.state.storedToken = some e.state.token)
    ∧ (∀ s : FeQuestApp.State,
      (FeQuestApp.handleLogout s).state.token = .str "" ∧
      (FeQuestApp.handleLogout s).state.storedToken = none)
    ∧ (∀ (s : GatewayApp.State) (resp : JSValue), ∃ e,
      GatewayApp.handleSignup s (.ok resp) = .ok e ∧
        e.state.storedToken = some e.state.token)
    ∧ (∀ (s : GatewayApp.State) (resp : JSValue), ∃ e,
      GatewayApp.handleLogin s (.ok resp) = .ok e ∧
        e.state.storedToken = some e.state.token)
    ∧ (∀ s : GatewayApp.State,
      (GatewayApp.handleLogout s).state.token = .str "" ∧
      (GatewayApp.handleLogout s).state.storedToken = none) :=
  ⟨fun _ _ => ⟨_, rfl, rfl⟩, fun _ _ => ⟨_, rfl, rfl⟩, fun _ => ⟨rfl, rfl⟩,
   fun _ _ => ⟨_, rfl, rfl⟩, fun _ _ => ⟨_, rfl, rfl⟩, fun _ => ⟨rfl, rfl⟩⟩

/-- C6, counterexample: a quest-assignment submission from the
`AssignQuest` component with no user selected (the select's default
`""`) sends `user_id: NaN` — `parseInt("")` — so the two fields are not
both sent as integers. -/
theorem c6_counterexample :
    AssignQuest.assignQuestBody ⟨.arr [], .arr [], "", "5"⟩ =
      .obj [("user_id", .nan), ("quest_id", .num 5)] := rfl

/-- C6, amended: every quest-assignment submission posts a body with
exactly the fields `user_id` and `quest_id`; in `AssignQuest` both are
`parseInt` of the selected values — integers whenever the selections
parse as numbers, `NaN` when a select is left empty — and in the two App
components `user_id` is the logged-in user's `user_id` as returned by
the server with `quest_id` put through `parseInt`. -/
theorem c6_amended :
    (∀ s : AssignQuest.State,
      fieldNames (AssignQuest.assignQuestBody s) = ["user_id", "quest_id"])
    ∧ (∀ s : AssignQuest.State, AssignQuest.assignQuestBody s =
        .obj [("user_id", parseIntJS s.selectedUser),
              ("quest_id", parseIntJS s.selectedQuest)])
    ∧ (∀ (s : AssignQuest.State) (a b : Int),
        parseIntJS s.selectedUser = .num a → parseIntJS s.selectedQuest = .num b →
        AssignQuest.assignQuestBody s =
          .obj [("user_id", .num a), ("quest_id", .num b)])
    ∧ (∀ (s : FeQuestApp.State) (qid : JSValue),
        FeQuestApp.assignQuestBody s qid =
          .obj [("user_id", propOf s.user "user_id"), ("quest_id", parseIntJSV qid)])
    ∧ (∀ (s : GatewayApp.State) (qid : JSValue),
        GatewayApp.assignQuestBody s qid =
          .obj [("user_id", propOf s.user "user_id"), ("quest_id", parseIntJSV qid)]) := by
  refine ⟨fun s => rfl, fun s => rfl, ?_, fun s qid => rfl, fun s qid => rfl⟩
  intro s a b ha hb
  simp [AssignQuest.assignQuestBody, ha, hb]

/-- C6 witness: with both selects holding numeric ids the body carries
the two integers. -/
theorem c6_amended_witness :
    parseIntJS "3" = .num 3 ∧ parseIntJS "5" = .num 5 ∧
    AssignQuest.assignQuestBody ⟨.arr [], .arr [], "3", "5"⟩ =
      .obj [("user_id", .num 3), ("quest_id", .num 5)] :=
  ⟨rfl, rfl, c6_amended.2.2.1 ⟨.arr [], .arr [], "3", "5"⟩ 3 5 rfl rfl⟩

/-- C7: the `QuestStatus` effect keyed on `[userId]` issues
GET `/user-quests/{userId}` on mount and whenever `userId` changes (and
not when it is unchanged), and the render shows `No quests found.` for an
empty list and one entry per quest — with its `quest_id`, `progress` and
`reward` — otherwise. -/
theorem c7_quest_status :
    (∀ uid : String, QuestStatus.effectStep none uid =
      (some (QuestStatus.questStatusGet uid), some uid))
    ∧ (∀ prev uid : String, uid ≠ prev →
      QuestStatus.effectStep (some prev) uid =
        (some (QuestStatus.questStatusGet uid), some uid))
    ∧ (∀ prev : String, QuestStatus.effectStep (some prev) prev = (none, some prev))
    ∧ (∀ uid : String, QuestStatus.questStatusGet uid =
      ⟨.get, "http://localhost:8003/user-quests/" ++ uid, none⟩)
    ∧ QuestStatus.render [] = .noQuests
    ∧ (∀ (q : JSValue) (qs : List JSValue),
      QuestStatus.render (q :: qs) =
        .entryList ((q :: qs).map QuestStatus.renderEntry))
    ∧ (∀ q : JSValue, QuestStatus.renderEntry q =
      ⟨propOf q "quest_id", propOf q "progress", propOf q "reward"⟩) := by
  refine ⟨fun uid => rfl, ?_, ?_, fun uid => rfl, rfl, fun q qs => rfl, fun q => rfl⟩
  · intro prev uid h
    simp [QuestStatus.effectStep, h]
  · intro prev
    simp [QuestStatus.effectStep]

/-- C7 witness: a changed `userId` re-issues the GET. -/
theorem c7_quest_status_witness :
    ("2" : String) ≠ "1" ∧
    QuestStatus.effectStep (some "1") "2" =
      (some (QuestStatus.questStatusGet "2"), some "2") :=
  ⟨by decide, c7_quest_status.2.1 "1" "2" (by decide)⟩

/-- C8: `decodeToken` is total on strings — it returns the parsed payload
when the primitive parse succeeds and `null` when it fails (the whole
body sits in `try`/`catch`) — and the `[token]` effect issues the
`fetchUser` GET only when the decoded value is truthy and has a truthy
`user_id`. -/
theorem c8_decode_total_and_guarded :
    (∀ (prim : String → Option JSValue) (token : String),
      FeQuestApp.decodeToken prim token =
        match prim (FeQuestApp.payloadOf token) with
        | some v => v
        | none => .null)
    ∧ (∀ (prim : String → Option JSValue) (token : String) (r : Request),
      r ∈ FeQuestApp.tokenEffectRequests prim token →
        truthy (FeQuestApp.decodeToken prim token) = true ∧
        truthy (propOf (FeQuestApp.decodeToken prim token) "user_id") = true ∧
        r = FeQuestApp.fetchUserRequest
              (propOf (FeQuestApp.decodeToken prim token) "user_id")) := by
  constructor
  · intro prim token
    unfold FeQuestApp.decodeToken
    cases prim (FeQuestApp.payloadOf token) <;> rfl
  · intro prim token r hr
    simp only [FeQuestApp.tokenEffectRequests] at hr
    split at hr
    · split at hr
      · rename_i hcond
        rw [List.mem_singleton] at hr
        rw [Bool.and_eq_true] at hcond
        exact ⟨hcond.1, hcond.2, hr⟩
      · simp at hr
    · simp at hr

/-- C8 witness: with a parse primitive yielding a payload holding
`user_id = 7` and a three-part token, the effect issues exactly the
`fetchUser` GET for that id. -/
theorem c8_witness :
    FeQuestApp.fetchUserRequest (.num 7) ∈
      FeQuestApp.tokenEffectRequests
        (fun _ => some (.obj [("user_id", .num 7)])) "h.p.s" ∧
    truthy (FeQuestApp.decodeToken
      (fun _ => some (.obj [("user_id", .num 7)])) "h.p.s") = true ∧
    truthy (propOf (FeQuestApp.decodeToken
      (fun _ => some (.obj [("user_id", .num 7)])) "h.p.s") "user_id") = true ∧
    FeQuestApp.fetchUserRequest (.num 7) =
      FeQuestApp.fetchUserRequest
        (propOf (FeQuestApp.decodeToken
          (fun _ => some (.obj [("user_id", .num 7)])) "h.p.s") "user_id") := by
  have hm : FeQuestApp.fetchUserRequest (.num 7) ∈
      FeQuestApp.tokenEffectRequests
        (fun _ => some (.obj [("user_id", .num 7)])) "h.p.s" := by
    show FeQuestApp.fetchUserRequest (.num 7) ∈ [FeQuestApp.fetchUserRequest (.num 7)]
    exact List.mem_singleton.mpr rfl
  exact ⟨hm, c8_decode_total_and_guarded.2 _ "h.p.s" _ hm⟩

/-- C9: in the three management components the displayed list starts as
`[]` and a fetch changes it only when the response body is an array —
a non-array success body and any error leave it unchanged — so the list
state is always an array. -/
theorem c9_lists_stay_arrays :
    (UserManagement.initialState.users = .arr [] ∧
     QuestManagement.initialState.quests = .arr [] ∧
     RewardManagement.initialState.rewards = .arr [])
    ∧ (∀ (s : UserManagement.State) (d : JSValue), isArray d = false →
        (UserManagement.fetchUsers s (.ok d)).state = s)
    ∧ (∀ (s : UserManagement.State) (e : JsError),
        (UserManagement.fetchUsers s (.err e)).state = s)
    ∧ (∀ (s : UserManagement.State) (o : HttpOutcome), isArray s.users = true →
        isArray (UserManagement.fetchUsers s o).state.users = true)
    ∧ (∀ (s : QuestManagement.State) (d : JSValue), isArray d = false →
        (QuestManagement.fetchQuests s (.ok d)).state = s)
    ∧ (∀ (s : QuestManagement.State) (e : JsError),
        (QuestManagement.fetchQuests s (.err e)).state = s)
    ∧ (∀ (s : QuestManagement.State) (o : HttpOutcome), isArray s.quests = true →
        isArray (QuestManagement.fetchQuests s o).state.quests = true)
    ∧ (∀ (s : RewardManagement.State) (d : JSValue), isArray d = false →
        (RewardManagement.fetchRewards s (.ok d)).state = s)
    ∧ (∀ (s : RewardManagement.State) (e : JsError),
        (RewardManagement.fetchRewards s (.err e)).state = s)
    ∧ (∀ (s : RewardManagement.State) (o : HttpOutcome), isArray s.rewards = true →
        isArray (RewardManagement.fetchRewards s o).state.rewards = true) := by
  refine ⟨⟨rfl, rfl, rfl⟩, ?_, fun s e => rfl, ?_, ?_, fun s e => rfl, ?_,
          ?_, fun s e => rfl, ?_⟩
  · intro s d h
    simp [UserManagement.fetchUsers, h]
  · rintro s (d | e) h
    · by_cases hd : isArray d <;> simp [UserManagement.fetchUsers, hd, h]
    · simpa [UserManagement.fetchUsers] using h
  · intro s d h
    simp [QuestManagement.fetchQuests, h]
  · rintro s (d | e) h
    · by_cases hd : isArray d <;> simp [QuestManagement.fetchQuests, hd, h]
    · simpa [QuestManagement.fetchQuests] using h
  · intro s d h
    simp [RewardManagement.fetchRewards, h]
  · rintro s (d | e) h
    · by_cases hd : isArray d <;> simp [RewardManagement.fetchRewards, hd, h]
    · simpa [RewardManagement.fetchRewards] using h

/-- C9 witness: a numeric response body leaves the initial empty user
list unchanged, and an array body keeps the state an array. -/
theorem c9_witness :
    isArray (.num 3) = false ∧
    (UserManagement.fetchUsers UserManagement.initialState (.ok (.num 3))).state =
      UserManagement.initialState ∧
    isArray UserManagement.initialState.users = true ∧
    isArray (UserManagement.fetchUsers UserManagement.initialState
      (.ok (.num 3))).state.users = true :=
  ⟨rfl,
   c9_lists_stay_arrays.2.1 UserManagement.initialState (.num 3) rfl,
   rfl,
   c9_lists_stay_arrays.2.2.2.1 UserManagement.initialState (.ok (.num 3)) rfl⟩

/-- C10: with no user logged in, `assignQuest`, `completeQuest`,
`claimQuest` and `fetchUserQuests` issue no HTTP request and change no
component state beyond the displayed message/alert: the fe-quest `App`
versions only alert (state untouched), the gateway `App` versions only
set the message field. -/
theorem c10_no_user_frame :
    (∀ s : FeQuestApp.State, s.user = .null →
      ∀ (qid : JSValue) (o1 o2 o3 : HttpOutcome),
        FeQuestApp.assignQuest s qid o1 o2 =
          .ok ⟨[], s, [], ["Please log in first."]⟩ ∧
        FeQuestApp.completeQuest s qid o1 o2 o3 =
          .ok ⟨[], s, [], ["Please log in first."]⟩ ∧
        FeQuestApp.claimQuest s qid o1 o2 o3 =
          .ok ⟨[], s, ["ok"], ["Please log in first.", "Please log in first."]⟩ ∧
        FeQuestApp.fetchUserQuests s o1 = ⟨[], s, [], ["Please log in first."]⟩)
    ∧ (∀ g : GatewayApp.State, g.user = .null →
      ∀ (qid : JSValue) (o1 o2 : HttpOutcome),
        GatewayApp.fetchUserQuests g o1 =
          ⟨[], { g with message := GatewayApp.showMsgVal "Please log in first" "error" }, []⟩ ∧
        GatewayApp.assignQuest g qid o1 o2 =
          .ok ⟨[], { g with message := GatewayApp.showMsgVal "Please log in first" "error" }, []⟩) := by
  constructor
  · intro s h qid o1 o2 o3
    refine ⟨?_, ?_, ?_, ?_⟩ <;>
      simp [FeQuestApp.assignQuest, FeQuestApp.completeQuest,
            FeQuestApp.claimQuest, FeQuestApp.fetchUserQuests, h, truthy]
  · intro g h qid o1 o2
    constructor <;>
      simp [GatewayApp.fetchUserQuests, GatewayApp.assignQuest, h, truthy]

/-- C10 witness: at a concrete logged-out state the four operations stay
request-free and state-preserving apart from the message/alert. -/
theorem c10_witness :
    FeQuestApp.fetchUserQuests feState0 (.ok (.arr [])) =
      ⟨[], feState0, [], ["Please log in first."]⟩ ∧
    FeQuestApp.claimQuest feState0 (.num 1) (.ok (.arr [])) (.ok (.arr []))
        (.ok (.arr [])) =
      .ok ⟨[], feState0, ["ok"], ["Please log in first.", "Please log in first."]⟩ ∧
    GatewayApp.assignQuest gwState0 (.num 1) (.ok (.arr [])) (.ok (.arr [])) =
      .ok ⟨[], { gwState0 with
                   message := GatewayApp.showMsgVal "Please log in first" "error" }, []⟩ := by
  have h1 := c10_no_user_frame.1 feState0 rfl (.num 1)
    (.ok (.arr [])) (.ok (.arr [])) (.ok (.arr []))
  have h2 := c10_no_user_frame.2 gwState0 rfl (.num 1)
    (.ok (.arr [])) (.ok (.arr []))
  exact ⟨h1.2.2.2, h1.2.2.1, h2.2⟩
